import Mathlib

/-!
Verification development for the backup-system repository.

The definitions below are a shallow embedding of the TypeScript sources:
  - the JSON-file job store shared by pages/api/backups.ts and
    pages/api/backup-stream.ts (readRecords / writeRecords),
  - the streaming handler pages/api/backup-stream.ts (record creation,
    cancel handler, success and failure finalizers, event trace),
  - the draft streaming handler src/unnamed/part_000 (close handler on the
    dump process, S3 upload and cleanup),
  - the dump-command resolvers of pages/api/backup.ts, src/unnamed/part_000,
    src/unnamed/part_003 and the invocation of backup-stream.ts,
  - the schedule registration of pages/api/backup.ts and src/unnamed/part_003.

ISO timestamp strings are modelled by the numeric time value that the code
itself extracts with new Date(s).getTime(); process exit codes are Int;
the filesystem state relevant to one execution is a Boolean flag for the
local artifact plus an abstract state of the history file.
-/

namespace BackupSystem

/-- Job status as stored in backup-history.json by backup-stream.ts:
the string union COMPLETED | FAILED | PROCESSING | QUEUED | CANCELLED. -/
inductive BackupStatus where
  | completed
  | failed
  | processing
  | queued
  | cancelled
deriving DecidableEq, Repr

/-- A record of backup-history.json (type BackupRecord in backups.ts and
backup-stream.ts). createdAt is the numeric time value of the ISO string. -/
structure BackupRecord where
  id : String
  dbName : String
  status : BackupStatus
  createdAt : Nat
  fileName : Option String := none
  error : Option String := none
  downloadUrl : Option String := none
deriving DecidableEq, Repr

/-- The state of the backup-history.json file: absent from disk, present but
empty, present with unparseable content (JSON.parse throws), or present and
holding a parsed array of records. -/
inductive HistoryFile where
  | absent
  | empty
  | corrupt
  | stored (recs : List BackupRecord)
deriving DecidableEq, Repr

/-- The body of readRecords before its catch clause: an absent file is
created holding the empty array, an empty file yields the empty list
(fileContent is falsy), corrupt content makes JSON.parse throw, and parsed
content is returned as is. The result pairs the returned list with the file
state after the call. -/
def tryReadRecords : HistoryFile → Except String (List BackupRecord × HistoryFile)
  | .absent => .ok ([], .stored [])
  | .empty => .ok ([], .empty)
  | .corrupt => .error "Unexpected token in JSON"
  | .stored recs => .ok (recs, .stored recs)

/-- readRecords of backups.ts lines 25-42 and backup-stream.ts lines 25-37:
the body wrapped in try/catch, where any thrown error is logged and the
empty list returned with the file untouched. -/
def readRecords (f : HistoryFile) : List BackupRecord × HistoryFile :=
  match tryReadRecords f with
  | .ok r => r
  | .error _ => ([], f)

/-- The sort comparator of backups.ts line 57:
(a, b) => new Date(b.createdAt).getTime() - new Date(a.createdAt).getTime(),
which orders a before b exactly when the comparator is nonpositive, i.e.
when b.createdAt is at most a.createdAt. -/
def newestFirst (a b : BackupRecord) : Bool :=
  decide (b.createdAt ≤ a.createdAt)

/-- The GET handler of backups.ts lines 54-58 applied to the parsed record
list: records.sort with the newest-first comparator. -/
def listBackups (records : List BackupRecord) : List BackupRecord :=
  records.mergeSort newestFirst

/-- Terminal statuses of the job state machine: COMPLETED, FAILED,
CANCELLED. -/
def isTerminal : BackupStatus → Bool
  | .completed => true
  | .failed => true
  | .cancelled => true
  | .processing => false
  | .queued => false

/-- First record with the given id, as selected by
records.findIndex(r => r.id === recordId). -/
def firstMatch (recs : List BackupRecord) (i : String) : Option BackupRecord :=
  recs.find? (fun r => r.id == i)

/-- The record mutation of the cancel handler, backup-stream.ts lines 97-103:
the first record whose id matches is set to CANCELLED with the fixed error
text, but only when its status is still PROCESSING; otherwise the list is
unchanged. -/
def cancelList : List BackupRecord → String → List BackupRecord
  | [], _ => []
  | r :: rs, i =>
    if r.id == i then
      if r.status == .processing then
        { r with status := .cancelled, error := some "Process cancelled by user." } :: rs
      else
        r :: rs
    else
      r :: cancelList rs i

/-- The close handler of backup-stream.ts lines 94-105 as a transformation
of the history file: readRecords, then write the mutated list back only
when the guard (record found and still PROCESSING) was taken; otherwise the
file keeps the state readRecords left it in. -/
def cancelClose (f : HistoryFile) (i : String) : HistoryFile :=
  let (recs, f1) := readRecords f
  match firstMatch recs i with
  | some r => if r.status == .processing then .stored (cancelList recs i) else f1
  | none => f1

/-- The success finalizer of backup-stream.ts lines 139-145: the first
record whose id matches is set to COMPLETED and its downloadUrl to the
signed url, regardless of its previous status; no other field is touched. -/
def completeFinalizer : List BackupRecord → String → String → List BackupRecord
  | [], _, _ => []
  | r :: rs, i, url =>
    if r.id == i then
      { r with status := .completed, downloadUrl := some url } :: rs
    else
      r :: completeFinalizer rs i url

/-- The failure finalizer of backup-stream.ts lines 150-156: the first
record whose id matches is set to FAILED and its error to the S3 error
text, regardless of its previous status. -/
def failFinalizer : List BackupRecord → String → String → List BackupRecord
  | [], _, _ => []
  | r :: rs, i, msg =>
    if r.id == i then
      { r with status := .failed, error := some msg } :: rs
    else
      r :: failFinalizer rs i msg

/-- Status tags carried by the server-sent events of the stream handlers. -/
inductive StatusTag where
  | processing
  | uploading
  | completed
  | failed
  | cancelled
  | closed
deriving DecidableEq, Repr

/-- Observable actions of one backup-stream.ts execution, in program order:
an event written to the response stream (tag none is a plain message line)
or a writeRecords call persisting a record list. -/
inductive Action where
  | emit (tag : Option StatusTag)
  | store (recs : List BackupRecord)
deriving DecidableEq, Repr

/-- Result of one backup-stream.ts execution: the final history file, a flag
for the local artifact under backups/, and the ordered trace of observable
actions. -/
structure StreamResult where
  file : HistoryFile
  artifactExists : Bool
  trace : List Action
deriving DecidableEq, Repr

/-- Artifact name of backup-stream.ts line 70, with the timestamp as its
numeric time value. -/
def backupFileName (dbName : String) (now : Nat) : String :=
  dbName ++ "_" ++ toString now ++ ".dump"

/-- One uninterrupted execution of the backup-stream.ts handler (no client
disconnect): read the store and append the new PROCESSING record; if the
bundled pg_dump binary is missing, return at line 82 (the handle-error stub)
without any further action; otherwise the dump output is piped into the
local file (the artifact comes into existence) and into the S3 upload, and
the await on the upload either resolves (success finalizer, then the
completed event) or rejects (the failed event, then the failure finalizer);
finally the closed event is sent. No path deletes the local artifact. -/
def streamHandler (binaryExists uploadOk : Bool) (recId dbName : String)
    (now : Nat) (signedUrl errMsg : String) (file0 : HistoryFile) : StreamResult :=
  let (records, _) := readRecords file0
  let newRecord : BackupRecord :=
    { id := recId, dbName := dbName, status := .processing, createdAt := now,
      fileName := some (backupFileName dbName now) }
  let records1 := records ++ [newRecord]
  if !binaryExists then
    { file := .stored records1, artifactExists := false, trace := [.store records1] }
  else if uploadOk then
    let (finalRecords, _) := readRecords (.stored records1)
    let updated := completeFinalizer finalRecords recId signedUrl
    { file := .stored updated,
      artifactExists := true,
      trace := [.store records1, .emit none, .store updated,
                .emit (some .completed), .emit (some .closed)] }
  else
    let (finalRecords, _) := readRecords (.stored records1)
    let updated := failFinalizer finalRecords recId ("S3 Error: " ++ errMsg)
    { file := .stored updated,
      artifactExists := true,
      trace := [.store records1, .emit (some .failed), .store updated,
                .emit (some .closed)] }

/-- Status strings written to the prisma BackupRecord table by the draft
handlers (src/unnamed/part_000, pages/api/backup.ts). -/
inductive PrismaStatus where
  | pending
  | completed
  | failed
deriving DecidableEq, Repr

/-- The prisma row of one draft-handler execution. completedAt is the
numeric time value of the Date written on a terminal update. -/
structure PrismaRecord where
  dbName : String
  status : PrismaStatus
  fileName : Option String := none
  error : Option String := none
  downloadUrl : Option String := none
  completedAt : Option Nat := none
deriving DecidableEq, Repr

/-- State of one src/unnamed/part_000 execution at the moment the dump
process closes: its prisma row, whether the local /tmp artifact file
exists, whether the S3 upload has been started, and the tags of the events
sent so far, in order. -/
structure Part000State where
  record : PrismaRecord
  artifactExists : Bool
  uploaderInvoked : Bool
  events : List (Option StatusTag)
  ended : Bool
deriving DecidableEq, Repr

/-- The close handler of src/unnamed/part_000 lines 67-96. Exit code 0: the
uploading event is sent, the upload runs, and on success the completed
event is sent and the row updated to completed with the signed url (on
upload failure the failed event and a failed row with the S3 error text);
the finally clause then unlinks the /tmp artifact if it exists. Any
non-zero exit code: the failed event is sent and the row updated to failed
with a fixed non-empty message, the uploader is never started, and no
unlink runs. -/
def part000Close (code : Int) (uploadOk : Bool) (fileName signedUrl s3ErrMsg : String)
    (now : Nat) (st : Part000State) : Part000State :=
  if code == 0 then
    if uploadOk then
      let rec1 := { st.record with
        status := PrismaStatus.completed, fileName := some fileName,
        downloadUrl := some signedUrl, completedAt := some now }
      { st with
        uploaderInvoked := true,
        events := st.events ++ [some .uploading, some .completed],
        record := rec1,
        artifactExists := false,
        ended := true }
    else
      let rec1 := { st.record with
        status := PrismaStatus.failed, error := some s3ErrMsg, completedAt := some now }
      { st with
        uploaderInvoked := true,
        events := st.events ++ [some .uploading, some .failed],
        record := rec1,
        artifactExists := false,
        ended := true }
  else
    let rec1 := { st.record with
      status := PrismaStatus.failed,
      error := some "Backup process failed. Check credentials and network access.",
      completedAt := some now }
    { st with
      events := st.events ++ [some .failed],
      record := rec1,
      ended := true }

/-- JavaScript encodeURIComponent: every character other than the
unreserved set A-Z a-z 0-9 - _ . ! ~ * ' ( ) is replaced by the uppercase
percent encoding of its UTF-8 bytes. -/
def isUnreservedChar (c : Char) : Bool :=
  c.isAlphanum || c == '-' || c == '_' || c == '.' || c == '!' ||
    c == '~' || c == '*' || c.toNat == 39 || c == '(' || c == ')'

/-- Uppercase hexadecimal digit of a value below 16. -/
def hexDigit (n : Nat) : Char :=
  if n < 10 then Char.ofNat (48 + n) else Char.ofNat (55 + n)

/-- UTF-8 bytes of a code point. -/
def utf8Bytes (c : Char) : List Nat :=
  let n := c.toNat
  if n < 128 then [n]
  else if n < 2048 then [192 + n / 64, 128 + n % 64]
  else if n < 65536 then [224 + n / 4096, 128 + (n / 64) % 64, 128 + n % 64]
  else [240 + n / 262144, 128 + (n / 4096) % 64, 128 + (n / 64) % 64, 128 + n % 64]

/-- Percent encoding of one character. -/
def percentEncodeChar (c : Char) : String :=
  String.mk ((utf8Bytes c).foldr
    (fun b acc => '%' :: hexDigit (b / 16) :: hexDigit (b % 16) :: acc) [])

/-- encodeURIComponent over a whole string. -/
def encodeURIComponent (s : String) : String :=
  String.mk (s.data.foldr
    (fun c acc => if isUnreservedChar c then c :: acc else (percentEncodeChar c).data ++ acc) [])

/-- The postgres connection string of pages/api/backup.ts line 47 and
src/unnamed/part_000 line 50: the URI-encoded password sits between the
user and the host. -/
def pgConnectionString (dbUser dbPassword dbHost dbPort dbName : String)
    (requireSsl : Bool) : String :=
  "postgresql://" ++ dbUser ++ ":" ++ encodeURIComponent dbPassword ++ "@" ++
    dbHost ++ ":" ++ dbPort ++ "/" ++ dbName ++
    (if requireSsl then "?sslmode=require" else "")

/-- A resolved external-process invocation: argument list and environment
overlay. -/
structure JobInvocation where
  args : List String
  env : List (String × String)
deriving DecidableEq, Repr

/-- Argument list spawned by src/unnamed/part_000 line 52:
[connectionString, -F, c, --no-password]. -/
def part000Args (dbUser dbPassword dbHost dbPort dbName : String)
    (requireSsl : Bool) : List String :=
  [pgConnectionString dbUser dbPassword dbHost dbPort dbName requireSsl,
   "-F", "c", "--no-password"]

/-- The shell command built by pages/api/backup.ts line 48 for the
postgresql kind: the connection string, password included, is interpolated
into the command line. -/
def backupTsDumpCommand (dbUser dbPassword dbHost dbPort dbName : String)
    (requireSsl : Bool) (fileName : String) : String :=
  "pg_dump \"" ++ pgConnectionString dbUser dbPassword dbHost dbPort dbName requireSsl ++
    "\" -F c --no-password > /tmp/" ++ fileName

/-- Argument list of backup-stream.ts lines 84-88: built from host, port,
user and database name only. -/
def streamArgs (dbHost dbPort dbUser dbName : String) : List String :=
  ["--format=c", "--blobs", "--verbose",
   "--host=" ++ dbHost, "--port=" ++ dbPort,
   "--username=" ++ dbUser, "--dbname=" ++ dbName]

/-- Environment overlay of backup-stream.ts line 90: the password travels
as PGPASSWORD, the TLS flag as PGSSLMODE. -/
def streamEnv (dbPassword : String) (requireSsl : Bool) : List (String × String) :=
  [("PGPASSWORD", dbPassword), ("PGSSLMODE", if requireSsl then "require" else "prefer")]

/-- The full invocation spawned by backup-stream.ts line 91. -/
def streamInvocation (dbHost dbPort dbUser dbPassword dbName : String)
    (requireSsl : Bool) : JobInvocation :=
  { args := streamArgs dbHost dbPort dbUser dbName,
    env := streamEnv dbPassword requireSsl }

/-- The postgresql dump command of src/unnamed/part_003 line 44: host,
port, user and database name only; the password travels in the environment
(PGPASSWORD, line 37). -/
def part003PgCommand (dbHost dbPort dbUser dbName fileName : String) : String :=
  "pg_dump -h " ++ dbHost ++ " -p " ++ dbPort ++ " -U " ++ dbUser ++
    " -d " ++ dbName ++ " -F c -f /tmp/" ++ fileName

/-- Substring occurrence: hay starts with needle. -/
def listStartsWith : List Char → List Char → Bool
  | [], _ => true
  | _ :: _, [] => false
  | a :: as, b :: bs => a == b && listStartsWith as bs

/-- Substring occurrence at any position of the haystack. -/
def occursInAux (needle : List Char) : List Char → Bool
  | [] => listStartsWith needle []
  | c :: cs => listStartsWith needle (c :: cs) || occursInAux needle cs

/-- Whether the needle occurs as a contiguous substring of the haystack. -/
def occursIn (needle hay : String) : Bool :=
  occursInAux needle.data hay.data

/-- Process-lifetime scheduler state: the live cron timers with the
identity each was registered under, plus a counter allocating timer
handles. -/
structure SchedState where
  liveTimers : List (String × Nat)
  nextHandle : Nat
deriving DecidableEq, Repr

/-- Schedule registration as pages/api/backup.ts lines 77-80 performs it:
cron.schedule starts a fresh timer; the computed jobKey is never consulted,
no existing timer is stopped and the new task handle is never stored. -/
def registerBackupTs (identity : String) (st : SchedState) : SchedState :=
  { liveTimers := st.liveTimers ++ [(identity, st.nextHandle)],
    nextHandle := st.nextHandle + 1 }

/-- Schedule registration as src/unnamed/part_003 lines 100-106 performs
it: a live timer already held in scheduledJobs under the same jobKey is
stopped first, then the fresh timer is started and stored under the key. -/
def registerPart003 (identity : String) (st : SchedState) : SchedState :=
  { liveTimers := st.liveTimers.filter (fun t => t.1 != identity) ++ [(identity, st.nextHandle)],
    nextHandle := st.nextHandle + 1 }

/-- Number of live timers registered under one identity. -/
def liveCount (st : SchedState) (identity : String) : Nat :=
  (st.liveTimers.filter (fun t => t.1 == identity)).length

/-- Whether an action is the emission of a terminal status tag. -/
def isTerminalEmit : Action → Bool
  | .emit (some t) => t == .completed || t == .failed || t == .cancelled
  | _ => false

/-- Whether an action is a writeRecords call persisting some FAILED
record. -/
def storesFailed : Action → Bool
  | .store recs => recs.any (fun r => r.status == .failed)
  | _ => false

/-- Whether an action is a writeRecords call persisting some COMPLETED
record. -/
def storesCompleted : Action → Bool
  | .store recs => recs.any (fun r => r.status == .completed)
  | _ => false

/-- The part_003 postgresql invocation: shell command plus environment
overlay (PGPASSWORD and MYSQL_PWD, src/unnamed/part_003 line 37). -/
def part003PgInvocation (dbHost dbPort dbUser dbPassword dbName fileName : String) :
    String × List (String × String) :=
  (part003PgCommand dbHost dbPort dbUser dbName fileName,
   [("PGPASSWORD", dbPassword), ("MYSQL_PWD", dbPassword)])

/-- A record already in the terminal CANCELLED state, as the cancel handler
leaves it; concrete input for witnesses and counterexamples. -/
def cancelledSample : BackupRecord :=
  { id := "a", dbName := "db", status := .cancelled, createdAt := 0,
    error := some "Process cancelled by user." }

/-- State of a part_000 execution at the moment the dump process closes:
the /tmp artifact has been written, the uploader has not been started. -/
def part000Sample : Part000State :=
  { record := { dbName := "mydb", status := .pending }, artifactExists := true,
    uploaderInvoked := false, events := [], ended := false }

/-- C9: for every stored sequence of records, the list endpoint returns a
permutation of them (nothing added, dropped, or modified) that is sorted
newest first by createdAt. -/
theorem listBackups_perm_sorted (records : List BackupRecord) :
    (listBackups records).Perm records ∧
    (listBackups records).Pairwise (fun a b => b.createdAt ≤ a.createdAt) := by
  constructor
  · exact List.mergeSort_perm records newestFirst
  · have h := @List.sorted_mergeSort BackupRecord newestFirst
      (fun a b c h1 h2 => by
        simp only [newestFirst, decide_eq_true_eq] at h1 h2 ⊢
        omega)
      (fun a b => by
        simp only [newestFirst]
        have := Nat.le_total b.createdAt a.createdAt
        rcases this with h | h <;> simp [h])
      records
    exact h.imp (fun hab => by simpa [newestFirst] using hab)

/-- C10: reading the job-record store is total: stored content is returned
as is, an absent file is created holding the empty array and the empty list
returned, an empty file reads as the empty list, corrupt content reads as
the empty list, and whenever the underlying read throws the catch clause
yields the empty list with the file untouched. -/
theorem readRecords_total_spec :
    (∀ l, readRecords (.stored l) = (l, .stored l)) ∧
    readRecords .absent = ([], .stored []) ∧
    readRecords .empty = ([], .empty) ∧
    readRecords .corrupt = ([], .corrupt) ∧
    (∀ f, (tryReadRecords f).isOk = false → readRecords f = ([], f)) := by
  refine ⟨fun l => rfl, rfl, rfl, rfl, fun f h => ?_⟩
  cases f <;> simp_all [tryReadRecords, readRecords, Except.isOk, Except.toBool]

/-- Witness for C10: the corrupt file makes the underlying read throw, and
readRecords still returns the empty list with the file untouched. -/
theorem readRecords_total_spec_witness :
    (tryReadRecords .corrupt).isOk = false ∧
    readRecords .corrupt = ([], .corrupt) :=
  ⟨by decide, readRecords_total_spec.2.2.2.2 .corrupt (by decide)⟩

/-- Helper: cancelling the first PROCESSING match turns it CANCELLED, and
it is still the first match afterwards. -/
theorem firstMatch_cancelList (i : String) (recs : List BackupRecord) (r : BackupRecord)
    (h : firstMatch recs i = some r) (hp : r.status = .processing) :
    firstMatch (cancelList recs i) i =
      some { r with status := .cancelled, error := some "Process cancelled by user." } := by
  induction recs with
  | nil => simp [firstMatch] at h
  | cons x xs ih =>
    by_cases hx : (x.id == i) = true
    · have hxr : x = r := by simpa [firstMatch, List.find?_cons, hx] using h
      subst hxr
      simp [cancelList, hx, firstMatch, List.find?_cons, hp]
    · have h' : firstMatch xs i = some r := by
        simpa [firstMatch, List.find?_cons, hx] using h
      simpa [cancelList, hx, firstMatch, List.find?_cons] using ih h'

/-- C5: the cancel handler is idempotent as a transformation of the history
file, and a record that has already reached a terminal state is left
untouched by it (the CANCELLED transition is applied only to a record that
is still PROCESSING). -/
theorem cancelClose_idempotent :
    (∀ (f : HistoryFile) (i : String), cancelClose (cancelClose f i) i = cancelClose f i) ∧
    (∀ (recs : List BackupRecord) (i : String) (r : BackupRecord),
      firstMatch recs i = some r → isTerminal r.status = true →
      cancelClose (.stored recs) i = .stored recs) := by
  constructor
  · intro f i
    cases f with
    | absent => rfl
    | empty => rfl
    | corrupt => rfl
    | stored recs =>
      cases hm : firstMatch recs i with
      | none => simp [cancelClose, readRecords, tryReadRecords, hm]
      | some r =>
        by_cases hp : r.status = .processing
        · have h2 := firstMatch_cancelList i recs r hm hp
          simp [cancelClose, readRecords, tryReadRecords, hm, hp, h2]
        · have hpb : (r.status == BackupStatus.processing) = false := by
            simpa using hp
          simp [cancelClose, readRecords, tryReadRecords, hm, hpb]
  · intro recs i r hm ht
    have hpb : (r.status == BackupStatus.processing) = false := by
      cases hs : r.status <;> simp_all [isTerminal]
    simp [cancelClose, readRecords, tryReadRecords, hm, hpb]

/-- Witness for C5 at concrete inputs: idempotence on a one-record store,
and a CANCELLED record is left untouched by the cancel handler. -/
theorem cancelClose_idempotent_witness :
    cancelClose (cancelClose (.stored [cancelledSample]) "a") "a" =
      cancelClose (.stored [cancelledSample]) "a" ∧
    (firstMatch [cancelledSample] "a" = some cancelledSample ∧
     isTerminal cancelledSample.status = true ∧
     cancelClose (.stored [cancelledSample]) "a" = .stored [cancelledSample]) :=
  ⟨cancelClose_idempotent.1 (.stored [cancelledSample]) "a",
   by decide, by decide,
   cancelClose_idempotent.2 [cancelledSample] "a" cancelledSample (by decide) (by decide)⟩

/-- C4 counterexample: the failure finalizer applied to a store whose
record is already terminal (CANCELLED) does not fail and does not leave the
record unchanged: it silently rewrites the record to FAILED. -/
theorem failFinalizer_overwrites_cancelled :
    failFinalizer [cancelledSample] "a" "S3 Error: boom" ≠ [cancelledSample] ∧
    (firstMatch (failFinalizer [cancelledSample] "a" "S3 Error: boom") "a").map
      (fun r => r.status) = some BackupStatus.failed ∧
    (firstMatch (failFinalizer [cancelledSample] "a" "S3 Error: boom") "a").map
      (fun r => r.error) = some (some "S3 Error: boom") := by
  decide

/-- C4 amended: only the cancel handler guards on the PROCESSING status;
the success and failure finalizers overwrite the first matching record
whatever its status, with no InvalidTransition failure, while the cancel
mutation alone leaves a terminal record unchanged. -/
theorem finalizers_ignore_terminal_guard (rec : BackupRecord) (rs : List BackupRecord)
    (url msg : String) (h : isTerminal rec.status = true) :
    completeFinalizer (rec :: rs) rec.id url =
      { rec with status := .completed, downloadUrl := some url } :: rs ∧
    failFinalizer (rec :: rs) rec.id msg =
      { rec with status := .failed, error := some msg } :: rs ∧
    cancelList (rec :: rs) rec.id = rec :: rs := by
  have hpb : (rec.status == BackupStatus.processing) = false := by
    cases hs : rec.status <;> simp_all [isTerminal]
  refine ⟨?_, ?_, ?_⟩
  · simp [completeFinalizer]
  · simp [failFinalizer]
  · simp [cancelList, hpb]

/-- Witness for C4 amended at a concrete CANCELLED record. -/
theorem finalizers_ignore_terminal_guard_witness :
    isTerminal cancelledSample.status = true ∧
    (completeFinalizer [cancelledSample] cancelledSample.id "u" =
      [{ cancelledSample with status := .completed, downloadUrl := some "u" }] ∧
     failFinalizer [cancelledSample] cancelledSample.id "m" =
      [{ cancelledSample with status := .failed, error := some "m" }] ∧
     cancelList [cancelledSample] cancelledSample.id = [cancelledSample]) :=
  ⟨by decide, finalizers_ignore_terminal_guard cancelledSample [] "u" "m" (by decide)⟩

/-- C1 (failing input): with the bundled pg_dump binary absent, the
backup-stream.ts handler returns at the handle-error stub of line 82 right
after persisting the fresh record; the execution ends with that record
still PROCESSING, with neither downloadUrl nor error populated, and with no
further store write or event in the trace. -/
theorem streamHandler_missing_binary_stuck_processing :
    (firstMatch (readRecords (streamHandler false true "job-1" "mydb" 5 "url" "boom" .absent).file).1
        "job-1").map (fun r => (r.status, r.downloadUrl, r.error)) =
      some (BackupStatus.processing, (none : Option String), (none : Option String)) ∧
    isTerminal BackupStatus.processing = false ∧
    (streamHandler false true "job-1" "mydb" 5 "url" "boom" .absent).trace.length = 1 := by
  decide

/-- C6 counterexample: a fully successful backup-stream.ts execution ends
with the record COMPLETED and the local artifact still existing: no
terminal path of this handler deletes the local file. -/
theorem streamHandler_success_keeps_artifact :
    (streamHandler true true "job-1" "mydb" 5 "url" "boom" .absent).artifactExists = true ∧
    (firstMatch (readRecords (streamHandler true true "job-1" "mydb" 5 "url" "boom" .absent).file).1
        "job-1").map (fun r => r.status) = some BackupStatus.completed := by
  decide

/-- C6 amended: the part_000 close handler deletes the /tmp artifact on
both upload outcomes once the dump exited with code 0, while every
backup-stream.ts execution that spawns the process ends with its local
artifact still in place. -/
theorem artifact_cleanup_as_implemented (ok : Bool) (fn url em : String) (n : Nat)
    (st : Part000State) :
    (part000Close 0 ok fn url em n st).artifactExists = false ∧
    (∀ (upOk : Bool) (recId db url2 em2 : String) (now : Nat) (f : HistoryFile),
      (streamHandler true upOk recId db now url2 em2 f).artifactExists = true) := by
  constructor
  · cases ok <;> simp [part000Close]
  · intro upOk recId db url2 em2 now f
    cases upOk <;> rfl

/-- C2 counterexample: a non-zero dump exit in part_000 marks the record
FAILED but leaves the partially written /tmp artifact in place, against the
claim that no local artifact is left on this path. -/
theorem part000_nonzero_exit_leaves_artifact :
    (part000Close 1 true "f.dump" "u" "e" 7 part000Sample).record.status = PrismaStatus.failed ∧
    (part000Close 1 true "f.dump" "u" "e" 7 part000Sample).artifactExists = true := by
  decide

/-- C2 amended: any non-zero dump exit code yields a FAILED record with the
fixed non-empty diagnostic, an unchanged downloadUrl, no uploader start and
no artifact cleanup; the failed event is appended as the terminal event. -/
theorem part000_nonzero_exit_fails_without_uploader (code : Int) (ok : Bool)
    (fn url em : String) (n : Nat) (st : Part000State) (h : code ≠ 0) :
    (part000Close code ok fn url em n st).record.status = PrismaStatus.failed ∧
    (part000Close code ok fn url em n st).record.error =
      some "Backup process failed. Check credentials and network access." ∧
    (part000Close code ok fn url em n st).record.downloadUrl = st.record.downloadUrl ∧
    (part000Close code ok fn url em n st).uploaderInvoked = st.uploaderInvoked ∧
    (part000Close code ok fn url em n st).artifactExists = st.artifactExists ∧
    (part000Close code ok fn url em n st).events = st.events ++ [some StatusTag.failed] := by
  have hc : (code == 0) = false := by simpa using h
  simp [part000Close, hc]

/-- Witness for C2 amended at exit code 1 and the concrete close-time
state. -/
theorem part000_nonzero_exit_fails_without_uploader_witness :
    (1 : Int) ≠ 0 ∧
    ((part000Close 1 true "f.dump" "u" "e" 7 part000Sample).record.status = PrismaStatus.failed ∧
     (part000Close 1 true "f.dump" "u" "e" 7 part000Sample).record.error =
       some "Backup process failed. Check credentials and network access." ∧
     (part000Close 1 true "f.dump" "u" "e" 7 part000Sample).record.downloadUrl =
       part000Sample.record.downloadUrl ∧
     (part000Close 1 true "f.dump" "u" "e" 7 part000Sample).uploaderInvoked =
       part000Sample.uploaderInvoked ∧
     (part000Close 1 true "f.dump" "u" "e" 7 part000Sample).artifactExists =
       part000Sample.artifactExists ∧
     (part000Close 1 true "f.dump" "u" "e" 7 part000Sample).events =
       part000Sample.events ++ [some StatusTag.failed]) :=
  ⟨by decide,
   part000_nonzero_exit_fails_without_uploader 1 true "f.dump" "u" "e" 7 part000Sample (by decide)⟩

/-- C3 counterexample: for the postgresql kind with password hunter2, the
connection string built by backup.ts and part_000 contains the password
literal, so it appears in the spawned argument list and in the shell
command line even though PGPASSWORD is also set. -/
theorem pg_password_embedded_in_args :
    occursIn "hunter2" (pgConnectionString "admin" "hunter2" "db.example.com" "5432" "mydb" false) = true ∧
    (part000Args "admin" "hunter2" "db.example.com" "5432" "mydb" false).any
      (occursIn "hunter2") = true ∧
    occursIn "hunter2"
      (backupTsDumpCommand "admin" "hunter2" "db.example.com" "5432" "mydb" false "f.dump") = true := by
  decide

/-- C3 amended: the backup-stream.ts invocation and the part_003 postgresql
command keep the password out of the argument list (the arguments are the
same whatever the password) and deliver it through the PGPASSWORD
environment entry, while the connection-string variants embed it. -/
theorem stream_invocation_password_only_in_env
    (dbHost dbPort dbUser dbName pw1 pw2 fn : String) (ssl : Bool) :
    (streamInvocation dbHost dbPort dbUser pw1 dbName ssl).args =
      (streamInvocation dbHost dbPort dbUser pw2 dbName ssl).args ∧
    (streamInvocation dbHost dbPort dbUser pw1 dbName ssl).env.lookup "PGPASSWORD" = some pw1 ∧
    (part003PgInvocation dbHost dbPort dbUser pw1 dbName fn).1 =
      (part003PgInvocation dbHost dbPort dbUser pw2 dbName fn).1 ∧
    (part003PgInvocation dbHost dbPort dbUser pw1 dbName fn).2.lookup "PGPASSWORD" = some pw1 := by
  refine ⟨rfl, ?_, rfl, ?_⟩ <;>
    simp [streamInvocation, streamEnv, part003PgInvocation, List.lookup]

/-- C7: two registrations of the same identity through the backup.ts
handler leave two live timers (the computed jobKey is never used to stop
the previous one), whereas the part_003 registration always leaves exactly
one live timer per identity. -/
theorem scheduler_registration_behaviour :
    liveCount (registerBackupTs "postgresql-db.example.com-mydb"
        (registerBackupTs "postgresql-db.example.com-mydb"
          { liveTimers := [], nextHandle := 0 })) "postgresql-db.example.com-mydb" = 2 ∧
    (∀ (st : SchedState) (k : String), liveCount (registerPart003 k st) k = 1) := by
  constructor
  · decide
  · intro st k
    simp only [registerPart003, liveCount, List.filter_append]
    induction st.liveTimers with
    | nil => simp
    | cons a l ih =>
      by_cases h : (a.1 == k) = true <;>
        simp [List.filter_cons, h, bne, ih]

/-- C8 counterexample: on the failure path of backup-stream.ts the terminal
failed event sits at trace position 1, before the store write of the FAILED
record at position 2: the terminal event is delivered before the transition
it reports. -/
theorem stream_failure_terminal_event_precedes_store :
    (streamHandler true false "job-1" "mydb" 5 "url" "boom" .absent).trace.findIdx?
      isTerminalEmit = some 1 ∧
    (streamHandler true false "job-1" "mydb" 5 "url" "boom" .absent).trace.findIdx?
      storesFailed = some 2 := by
  decide

/-- C8 amended: on the success path the COMPLETED store write (position 2)
precedes the terminal completed event (position 3); on the failure path the
failed event (position 1) precedes the FAILED store write (position 2); on
both paths the closed sentinel is the final event. -/
theorem stream_terminal_event_order (recId db url msg : String) (now : Nat) :
    (streamHandler true true recId db now url msg .absent).trace.findIdx?
      storesCompleted = some 2 ∧
    (streamHandler true true recId db now url msg .absent).trace.findIdx?
      isTerminalEmit = some 3 ∧
    (streamHandler true true recId db now url msg .absent).trace.getLast? =
      some (.emit (some .closed)) ∧
    (streamHandler true false recId db now url msg .absent).trace.findIdx?
      isTerminalEmit = some 1 ∧
    (streamHandler true false recId db now url msg .absent).trace.findIdx?
      storesFailed = some 2 ∧
    (streamHandler true false recId db now url msg .absent).trace.getLast? =
      some (.emit (some .closed)) := by
  refine ⟨?_, ?_, ?_, ?_, ?_, ?_⟩ <;>
    simp [streamHandler, readRecords, tryReadRecords, completeFinalizer, failFinalizer,
      storesCompleted, storesFailed, isTerminalEmit, List.findIdx?_cons, backupFileName]

end BackupSystem
